import Mathlib

/-!
Shallow embedding of the orientation-validation core of the threejs-viewer
repository. Numeric values are modelled by real numbers (the idealisation of
the floating-point arithmetic in the source); scene-graph reads performed
through the three.js library (world positions, quaternions, bounding boxes,
skeleton detection) are modelled as data supplied by a `Scene` record, since
the library itself is outside the repository. Every definition mirrors the
corresponding function of the source files under src/core/validation.
-/

namespace ThreeViewer

noncomputable section

/-- Severity of a validation check result (src/types/validation.ts). -/
inductive Severity
| error
| warning
| info
deriving DecidableEq

/-- Rotation axis tag of a corrective rotation (src/types/validation.ts). -/
inductive Axis
| x
| y
| z
deriving DecidableEq

/-- Detection method tag of a geometry-analysis result
(geometry-analysis/types.ts). -/
inductive Method
| skeleton
| normals
| pca
| boundingBox
| transform
| none
deriving DecidableEq

/-- Confidence tier of a skeleton orientation result
(geometry-analysis/types.ts). -/
inductive Tier
| high
| medium
| low
deriving DecidableEq

/-- A three-component vector (THREE.Vector3), components idealised as reals. -/
@[ext] structure Vec3 where
  x : ℝ
  y : ℝ
  z : ℝ

/-- A quaternion (THREE.Quaternion). -/
@[ext] structure Quat where
  x : ℝ
  y : ℝ
  z : ℝ
  w : ℝ

namespace Vec3

/-- THREE.Vector3.dot. -/
def dot (a b : Vec3) : ℝ := a.x * b.x + a.y * b.y + a.z * b.z

/-- THREE.Vector3.sub (componentwise difference). -/
def sub (a b : Vec3) : Vec3 := ⟨a.x - b.x, a.y - b.y, a.z - b.z⟩

/-- THREE.Vector3 negation (componentwise). -/
def neg (a : Vec3) : Vec3 := ⟨-a.x, -a.y, -a.z⟩

/-- THREE.Vector3.crossVectors. -/
def cross (a b : Vec3) : Vec3 :=
  ⟨a.y * b.z - a.z * b.y, a.z * b.x - a.x * b.z, a.x * b.y - a.y * b.x⟩

/-- THREE.Vector3.length, the Euclidean length sqrt(x*x + y*y + z*z). -/
def length (a : Vec3) : ℝ := Real.sqrt (a.x * a.x + a.y * a.y + a.z * a.z)

/-- THREE.Vector3.normalize: divideScalar(length() or 1); the library guards a
zero length by dividing by 1 instead, leaving the vector unchanged. -/
def normalize (a : Vec3) : Vec3 :=
  let l := a.length
  let d := if l = 0 then 1 else l
  ⟨a.x / d, a.y / d, a.z / d⟩

end Vec3

/-- The right/up/forward triple produced by extractBasisVectors
(math-utils.ts). -/
structure BasisVectors where
  right : Vec3
  up : Vec3
  forward : Vec3

/-- extractBasisVectors (math-utils.ts): reads columns of
Matrix4.makeRotationFromQuaternion; forward is the negated third column. -/
def extractBasisVectors (q : Quat) : BasisVectors :=
  let x2 := q.x + q.x
  let y2 := q.y + q.y
  let z2 := q.z + q.z
  let xx := q.x * x2
  let xy := q.x * y2
  let xz := q.x * z2
  let yy := q.y * y2
  let yz := q.y * z2
  let zz := q.z * z2
  let wx := q.w * x2
  let wy := q.w * y2
  let wz := q.w * z2
  { right := ⟨1 - (yy + zz), xy + wz, xz - wy⟩
    up := ⟨xy - wz, 1 - (xx + zz), yz + wx⟩
    forward := ⟨-(xz + wy), -(yz - wx), -(1 - (xx + yy))⟩ }

/-- vectorsApproximatelyEqual (math-utils.ts): normalizes both vectors and
compares their dot product against the threshold (default 0.996). -/
def vectorsApproximatelyEqual (a b : Vec3) (threshold : ℝ := 0.996) : Prop :=
  (a.normalize).dot (b.normalize) ≥ threshold

/-- The nine rotation-and-scale entries of a THREE.Matrix4 built by
Matrix4.compose, indexed as in the column-major elements array. -/
structure Mat3 where
  e0 : ℝ
  e1 : ℝ
  e2 : ℝ
  e4 : ℝ
  e5 : ℝ
  e6 : ℝ
  e8 : ℝ
  e9 : ℝ
  e10 : ℝ

/-- Matrix4.compose(zero, q, s) restricted to its rotation-and-scale block,
as built by checkHandedness. -/
def composeRotScale (q : Quat) (s : Vec3) : Mat3 :=
  let x2 := q.x + q.x
  let y2 := q.y + q.y
  let z2 := q.z + q.z
  let xx := q.x * x2
  let xy := q.x * y2
  let xz := q.x * z2
  let yy := q.y * y2
  let yz := q.y * z2
  let zz := q.z * z2
  let wx := q.w * x2
  let wy := q.w * y2
  let wz := q.w * z2
  { e0 := (1 - (yy + zz)) * s.x
    e1 := (xy + wz) * s.x
    e2 := (xz - wy) * s.x
    e4 := (xy - wz) * s.y
    e5 := (1 - (xx + zz)) * s.y
    e6 := (yz + wx) * s.y
    e8 := (xz + wy) * s.z
    e9 := (yz - wx) * s.z
    e10 := (1 - (xx + yy)) * s.z }

/-- matrix3x3Determinant (math-utils.ts): cofactor expansion over the upper
3x3 block of the elements array. -/
def matrix3x3Determinant (m : Mat3) : ℝ :=
  let m11 := m.e0
  let m12 := m.e4
  let m13 := m.e8
  let m21 := m.e1
  let m22 := m.e5
  let m23 := m.e9
  let m31 := m.e2
  let m32 := m.e6
  let m33 := m.e10
  m11 * (m22 * m33 - m23 * m32) -
    m12 * (m21 * m33 - m23 * m31) +
    m13 * (m21 * m32 - m22 * m31)

/-- A bone as read through three.js after updateWorldMatrix: its world
position and world quaternion. -/
structure Bone where
  worldPosition : Vec3
  worldQuaternion : Quat

/-- StandardBones (geometry-analysis/types.ts): the nine optional semantic
bone slots resolved by findStandardBones. -/
structure StandardBones where
  hips : Option Bone
  spine : Option Bone
  chest : Option Bone
  neck : Option Bone
  head : Option Bone
  leftShoulder : Option Bone
  rightShoulder : Option Bone
  leftUpperArm : Option Bone
  rightUpperArm : Option Bone

/-- OrientationResult (geometry-analysis/types.ts). -/
structure OrientationResult where
  upVector : Vec3
  forwardVector : Vec3
  rightVector : Vec3
  confidence : Tier
  method : String

/-- GeometryAnalysisResult (geometry-analysis/types.ts); the open metadata
bag carries diagnostics only and is not modelled. -/
structure GeometryAnalysisResult where
  method : Method
  confidence : ℝ
  detectedForward : Vec3
  detectedUp : Vec3

/-- THREE.Vector3.applyQuaternion, as used for the hips forward hint. -/
def applyQuaternion (v : Vec3) (q : Quat) : Vec3 :=
  let tx := 2 * (q.y * v.z - q.z * v.y)
  let ty := 2 * (q.z * v.x - q.x * v.z)
  let tz := 2 * (q.x * v.y - q.y * v.x)
  ⟨v.x + q.w * tx + q.y * tz - q.z * ty,
   v.y + q.w * ty + q.z * tx - q.x * tz,
   v.z + q.w * tz + q.x * ty - q.y * tx⟩

/-- A placeholder bone for the non-null assertions of the source; the
branches of calculateSkeletonOrientation only call the helpers below when
the asserted slots are present, so this value is never observed. -/
def defaultBone : Bone := ⟨⟨0, 0, 0⟩, ⟨0, 0, 0, 1⟩⟩

/-- calculateFromFullSkeleton (skeleton-orientation.ts): up from hips to
head, right from left to right shoulder (or upper arm), forward as up cross
right, then right recomputed as forward cross up. -/
def calculateFromFullSkeleton (bones : StandardBones) : OrientationResult :=
  let hips := bones.hips.getD defaultBone
  let head := bones.head.getD defaultBone
  let leftBone := (bones.leftShoulder <|> bones.leftUpperArm).getD defaultBone
  let rightBone := (bones.rightShoulder <|> bones.rightUpperArm).getD defaultBone
  let upVector := (head.worldPosition.sub hips.worldPosition).normalize
  let rightVector0 :=
    (rightBone.worldPosition.sub leftBone.worldPosition).normalize
  let forwardVector := (upVector.cross rightVector0).normalize
  let rightVector := (forwardVector.cross upVector).normalize
  { upVector := upVector
    forwardVector := forwardVector
    rightVector := rightVector
    confidence := Tier.high
    method := "Full skeleton (hips, head, shoulders)" }

/-- Shared body of the two spine strategies: up from hips to the given top
position, forward from the hips local -Z projected onto the plane
perpendicular to up, right as up cross forward. -/
def spineBasis (hips : Bone) (topPos : Vec3) : Vec3 × Vec3 × Vec3 :=
  let upVector := (topPos.sub hips.worldPosition).normalize
  let hipsForward := applyQuaternion ⟨0, 0, -1⟩ hips.worldQuaternion
  let k := hipsForward.dot upVector
  let forwardVector :=
    (⟨hipsForward.x - upVector.x * k, hipsForward.y - upVector.y * k,
      hipsForward.z - upVector.z * k⟩ : Vec3).normalize
  let rightVector := (upVector.cross forwardVector).normalize
  (upVector, forwardVector, rightVector)

/-- calculateFromSpineOnly (skeleton-orientation.ts). -/
def calculateFromSpineOnly (bones : StandardBones) : OrientationResult :=
  let hips := bones.hips.getD defaultBone
  let head := bones.head.getD defaultBone
  let b := spineBasis hips head.worldPosition
  { upVector := b.1
    forwardVector := b.2.1
    rightVector := b.2.2
    confidence := Tier.medium
    method := "Spine only (hips to head, forward from hips orientation)" }

/-- calculateFromPartialSpine (skeleton-orientation.ts): the top bone is
neck, else chest, else spine. -/
def calculateFromPartialSpine (bones : StandardBones) : OrientationResult :=
  let hips := bones.hips.getD defaultBone
  let topBone := (bones.neck <|> bones.chest <|> bones.spine).getD defaultBone
  let b := spineBasis hips topBone.worldPosition
  { upVector := b.1
    forwardVector := b.2.1
    rightVector := b.2.2
    confidence := Tier.low
    method := "Partial spine (limited bone data)" }

/-- calculateSkeletonOrientation (skeleton-orientation.ts): three fallback
strategies tried in order of richness, none when no strategy applies. -/
def calculateSkeletonOrientation (bones : StandardBones) :
    Option OrientationResult :=
  if bones.hips.isSome && bones.head.isSome &&
      (bones.leftShoulder.isSome || bones.leftUpperArm.isSome) &&
      (bones.rightShoulder.isSome || bones.rightUpperArm.isSome) then
    some (calculateFromFullSkeleton bones)
  else if bones.hips.isSome && bones.head.isSome then
    some (calculateFromSpineOnly bones)
  else if bones.hips.isSome &&
      (bones.spine.isSome || bones.chest.isSome || bones.neck.isSome) then
    some (calculateFromPartialSpine bones)
  else
    none

/-- A scene-graph root as read through three.js. The fields abstract the
library reads made by the validation core: the root local scale and
quaternion, the world axis-aligned bounding box produced by
Box3.setFromObject (with its emptiness flag), and the outcome of skeleton
detection (analyzeSkeleton and findStandardBones of skeleton-detector.ts,
which only traverse the scene graph and match bone names). The three
throw-flags model the try/catch containment of detectModelOrientation: a
strategy whose library reads throw contributes no result. -/
structure Scene where
  scale : Vec3
  quaternion : Quat
  bboxIsEmpty : Bool
  bboxMin : Vec3
  bboxMax : Vec3
  hasSkeleton : Bool
  standardBones : StandardBones
  skeletonThrows : Bool
  bboxThrows : Bool
  transformThrows : Bool

/-- THREE.Box3.getSize: zero for an empty box, else max minus min. -/
def Scene.bboxSize (s : Scene) : Vec3 :=
  if s.bboxIsEmpty then ⟨0, 0, 0⟩ else s.bboxMax.sub s.bboxMin

/-- THREE.Box3.getCenter: zero for an empty box, else the midpoint. -/
def Scene.bboxCenter (s : Scene) : Vec3 :=
  if s.bboxIsEmpty then ⟨0, 0, 0⟩
  else ⟨(s.bboxMin.x + s.bboxMax.x) / 2, (s.bboxMin.y + s.bboxMax.y) / 2,
        (s.bboxMin.z + s.bboxMax.z) / 2⟩

/-- getTallestAxis (bounding-box-analysis.ts): Y wins ties over Z, Z over
X. -/
def getTallestAxis (dims : Vec3) : Axis :=
  if dims.y ≥ dims.x ∧ dims.y ≥ dims.z then Axis.y
  else if dims.z ≥ dims.x ∧ dims.z ≥ dims.y then Axis.z
  else Axis.x

/-- analyzeBoundingBox (bounding-box-analysis.ts): classifies the bounding
box by its tallest axis; none when the box size has zero length. -/
def analyzeBoundingBox (s : Scene) : Option GeometryAnalysisResult :=
  let size := s.bboxSize
  if size.length = 0 then none
  else
    let dims := size
    let tallestAxis := getTallestAxis dims
    let maxHorizontal := max dims.x dims.z
    let heightRat := dims.y / (maxHorizontal + 0.001)
    if tallestAxis = Axis.y then
      some { method := Method.boundingBox
             confidence := min 0.6 (0.3 + (heightRat - 1) * 0.15)
             detectedForward := ⟨0, 0, -1⟩
             detectedUp := ⟨0, 1, 0⟩ }
    else if tallestAxis = Axis.z then
      some { method := Method.boundingBox
             confidence := min 0.7 (0.4 + |dims.z / dims.y - 1| * 0.2)
             detectedForward := ⟨0, -1, 0⟩
             detectedUp := ⟨0, 0, 1⟩ }
    else if tallestAxis = Axis.x then
      let yToX := dims.y / dims.x
      if yToX > 0.3 then
        some { method := Method.boundingBox
               confidence := 0.3
               detectedForward := ⟨0, 0, -1⟩
               detectedUp := ⟨0, 1, 0⟩ }
      else
        some { method := Method.boundingBox
               confidence := 0.25
               detectedForward := ⟨0, 0, -1⟩
               detectedUp := ⟨1, 0, 0⟩ }
    else
      none

/-- The tier-to-confidence map of detectModelOrientation
(orientation-detector.ts): high 0.95, medium 0.7, low 0.5. -/
def confidenceMap : Tier → ℝ
| Tier.high => 0.95
| Tier.medium => 0.7
| Tier.low => 0.5

/-- The list of strategy results assembled by detectModelOrientation in
order: skeleton analysis, bounding-box analysis, transform fallback. A
throwing strategy contributes nothing (its exception is caught). -/
def strategyResults (s : Scene) : List GeometryAnalysisResult :=
  (if s.skeletonThrows then []
   else if s.hasSkeleton then
     match calculateSkeletonOrientation s.standardBones with
     | some o =>
         [{ method := Method.skeleton
            confidence := confidenceMap o.confidence
            detectedForward := o.forwardVector
            detectedUp := o.upVector }]
     | Option.none => []
   else [])
  ++ (if s.bboxThrows then []
      else
        match analyzeBoundingBox s with
        | some r => [r]
        | Option.none => [])
  ++ (if s.transformThrows then []
      else
        let b := extractBasisVectors s.quaternion
        [{ method := Method.transform
           confidence := 0.3
           detectedForward := b.forward
           detectedUp := b.up }])

/-- The descending-confidence order used by the sort in
detectModelOrientation (comparator b.confidence - a.confidence). -/
def confGE (a b : GeometryAnalysisResult) : Prop :=
  b.confidence ≤ a.confidence

instance : DecidableRel confGE := fun a b =>
  inferInstanceAs (Decidable (b.confidence ≤ a.confidence))

instance : IsTotal GeometryAnalysisResult confGE :=
  ⟨fun a b => (le_total b.confidence a.confidence).imp id id⟩

instance : IsTrans GeometryAnalysisResult confGE :=
  ⟨fun _ _ _ h1 h2 => le_trans h2 h1⟩

/-- OrientationDetectionResult (orientation-detector.ts). -/
structure OrientationDetectionResult where
  detectedForward : Vec3
  detectedUp : Vec3
  confidence : ℝ
  method : Method
  allResults : List GeometryAnalysisResult

/-- detectModelOrientation (orientation-detector.ts): gathers the strategy
results, returns the identity defaults when no strategy succeeded, else
sorts descending by confidence (a stable sort, modelled by insertion sort)
and reports the head. The source checks emptiness before sorting, which is
equivalent since sorting preserves emptiness. -/
def detectModelOrientation (s : Scene) : OrientationDetectionResult :=
  match List.insertionSort confGE (strategyResults s) with
  | [] =>
      { detectedForward := ⟨0, 0, -1⟩
        detectedUp := ⟨0, 1, 0⟩
        confidence := 0
        method := Method.none
        allResults := [] }
  | best :: rest =>
      { detectedForward := best.detectedForward
        detectedUp := best.detectedUp
        confidence := best.confidence
        method := best.method
        allResults := best :: rest }

/-- A JavaScript number outcome: the IEEE idealisation distinguishing
finite values from the infinities and NaN that unguarded division can
produce. -/
inductive JSNum
| fin (v : ℝ)
| posInf
| negInf
| nan

/-- Whether a JavaScript number outcome is finite. -/
def JSNum.isFinite : JSNum → Bool
| JSNum.fin _ => true
| _ => false

/-- JavaScript division on (finite real) operands: a zero divisor yields
NaN for a zero dividend and a signed infinity otherwise. -/
def jsDiv (a b : ℝ) : JSNum :=
  if b = 0 then
    if a = 0 then JSNum.nan
    else if 0 < a then JSNum.posInf
    else JSNum.negInf
  else JSNum.fin (a / b)

/-- CorrectionTransform (src/types/validation.ts). The components of a
corrective scale are JavaScript number outcomes because checkScale divides
without guarding against zero. -/
inductive CorrectionTransform
| rotate (axis : Axis) (angleDegrees : ℝ)
| scale (x y z : JSNum)
| translate (x y z : ℝ)

/-- The type tag of a correction transform (its `type` field). -/
inductive TransformKind
| scale
| rotate
| translate
deriving DecidableEq

/-- The `type` field of a CorrectionTransform. -/
def transformType : CorrectionTransform → TransformKind
| CorrectionTransform.rotate _ _ => TransformKind.rotate
| CorrectionTransform.scale _ _ _ => TransformKind.scale
| CorrectionTransform.translate _ _ _ => TransformKind.translate

/-- The typePriority table of ModelValidator.orderCorrections:
scale 1, rotate 2, translate 3. -/
def typePriority : TransformKind → ℕ
| TransformKind.scale => 1
| TransformKind.rotate => 2
| TransformKind.translate => 3

/-- The ascending-priority order used by the correction sort. -/
def prioLE (a b : CorrectionTransform) : Prop :=
  typePriority (transformType a) ≤ typePriority (transformType b)

instance : DecidableRel prioLE := fun a b =>
  inferInstanceAs (Decidable (typePriority (transformType a) ≤ typePriority (transformType b)))

instance : IsTotal CorrectionTransform prioLE :=
  ⟨fun a b => le_total (typePriority (transformType a)) (typePriority (transformType b))⟩

instance : IsTrans CorrectionTransform prioLE :=
  ⟨fun _ _ _ h1 h2 => le_trans h1 h2⟩

/-- ValidationCheckResult (src/types/validation.ts), restricted to the
fields consumed by the validator; the message, measured and expected
values, deviation angle and metadata are display diagnostics. -/
structure ValidationCheckResult where
  checkId : String
  passed : Bool
  severity : Severity
  correctiveTransform : Option CorrectionTransform

/-- checkScale (checks/scale.ts): passes when the scale is uniform (max
minus min below 0.01) and normalized (each component within 0.01 of 1);
else a warning with the unguarded reciprocal corrective scale. -/
def checkScale (s : Scene) : ValidationCheckResult :=
  let scale := s.scale
  let maxScale := max scale.x (max scale.y scale.z)
  let minScale := min scale.x (min scale.y scale.z)
  let isUniform := maxScale - minScale < 0.01
  let isNormalized :=
    |scale.x - 1| < 0.01 ∧ |scale.y - 1| < 0.01 ∧ |scale.z - 1| < 0.01
  if isUniform ∧ isNormalized then
    { checkId := "scale", passed := true, severity := Severity.info
      correctiveTransform := Option.none }
  else
    { checkId := "scale", passed := false, severity := Severity.warning
      correctiveTransform :=
        some (CorrectionTransform.scale (jsDiv 1 scale.x) (jsDiv 1 scale.y)
          (jsDiv 1 scale.z)) }

/-- checkHandedness (checks/handedness.ts): positive determinant of the
composed rotation-scale matrix passes; otherwise an error with corrective
scale (-1, 1, 1). -/
def checkHandedness (s : Scene) : ValidationCheckResult :=
  let det := matrix3x3Determinant (composeRotScale s.quaternion s.scale)
  if det > 0 then
    { checkId := "handedness", passed := true, severity := Severity.info
      correctiveTransform := Option.none }
  else
    { checkId := "handedness", passed := false, severity := Severity.error
      correctiveTransform :=
        some (CorrectionTransform.scale (JSNum.fin (-1)) (JSNum.fin 1)
          (JSNum.fin 1)) }

/-- checkUpDirection (checks/up-direction.ts): compares the detected up to
(0,1,0); failing branches test Z-up, upside-down and X-up in order, each
reported at severity error. -/
def checkUpDirection (s : Scene) : ValidationCheckResult :=
  let detection := detectModelOrientation s
  let up := detection.detectedUp
  let upDot := up.dot ⟨0, 1, 0⟩
  if upDot ≥ 0.996 then
    { checkId := "up-direction", passed := true, severity := Severity.info
      correctiveTransform := Option.none }
  else if up.dot ⟨0, 0, 1⟩ ≥ 0.996 then
    { checkId := "up-direction", passed := false, severity := Severity.error
      correctiveTransform := some (CorrectionTransform.rotate Axis.x (-90)) }
  else if up.dot ⟨0, -1, 0⟩ ≥ 0.996 then
    { checkId := "up-direction", passed := false, severity := Severity.error
      correctiveTransform := some (CorrectionTransform.rotate Axis.z 180) }
  else if |up.dot ⟨1, 0, 0⟩| ≥ 0.996 then
    { checkId := "up-direction", passed := false, severity := Severity.error
      correctiveTransform :=
        some (CorrectionTransform.rotate Axis.z (if up.x > 0 then -90 else 90)) }
  else
    { checkId := "up-direction", passed := false, severity := Severity.error
      correctiveTransform := Option.none }

/-- checkForwardDirection (checks/forward-direction.ts): compares the
detected forward to (0,0,-1); failing branches test backwards (+Z) and
pointing down (-Y, threshold 0.9) in order. -/
def checkForwardDirection (s : Scene) : ValidationCheckResult :=
  let detection := detectModelOrientation s
  let forward := detection.detectedForward
  if forward.dot ⟨0, 0, -1⟩ ≥ 0.996 then
    { checkId := "forward-direction", passed := true, severity := Severity.info
      correctiveTransform := Option.none }
  else if forward.dot ⟨0, 0, 1⟩ ≥ 0.996 then
    { checkId := "forward-direction", passed := false
      severity := Severity.error
      correctiveTransform := some (CorrectionTransform.rotate Axis.y 180) }
  else if forward.dot ⟨0, -1, 0⟩ ≥ 0.9 then
    { checkId := "forward-direction", passed := false
      severity := Severity.error
      correctiveTransform := some (CorrectionTransform.rotate Axis.x (-90)) }
  else
    { checkId := "forward-direction", passed := false
      severity := Severity.error
      correctiveTransform := Option.none }

/-- checkPivotPosition (checks/pivot-position.ts): bottom of the box within
0.05 of y zero and its X/Z center within 0.05 of the origin; else a warning
with the corrective translation. -/
def checkPivotPosition (s : Scene) : ValidationCheckResult :=
  let center := s.bboxCenter
  let bmin := s.bboxMin
  let isYAtBottom := |bmin.y| < 0.05
  let isXCentered := |center.x| < 0.05
  let isZCentered := |center.z| < 0.05
  if isYAtBottom ∧ isXCentered ∧ isZCentered then
    { checkId := "pivot-position", passed := true, severity := Severity.info
      correctiveTransform := Option.none }
  else
    { checkId := "pivot-position", passed := false
      severity := Severity.warning
      correctiveTransform :=
        some (CorrectionTransform.translate (-center.x) (-bmin.y) (-center.z)) }

/-- The corrective transforms collected by ModelValidator.orderCorrections
before sorting: transforms of checks that did not pass, in check order. -/
def failedCorrections (checks : List ValidationCheckResult) :
    List CorrectionTransform :=
  checks.filterMap fun c =>
    if c.passed then Option.none else c.correctiveTransform

/-- ModelValidator.orderCorrections: collect the transforms of failed
checks and stably sort them ascending by type priority (scale, rotate,
translate). -/
def orderCorrections (checks : List ValidationCheckResult) :
    List CorrectionTransform :=
  List.insertionSort prioLE (failedCorrections checks)

/-- ModelValidationReport (src/types/validation.ts); the timestamp is an
external clock read and is not modelled. -/
structure ModelValidationReport where
  modelName : String
  checks : List ValidationCheckResult
  overallPassed : Bool
  errorCount : ℕ
  warningCount : ℕ
  suggestedCorrections : List CorrectionTransform

/-- ModelValidator.validate (validator.ts): runs the five checks in order,
tallies failed error and warning severities, and orders the corrections. -/
def validate (s : Scene) (modelName : String) : ModelValidationReport :=
  let checks := [checkScale s, checkHandedness s, checkUpDirection s,
    checkForwardDirection s, checkPivotPosition s]
  let errorCount :=
    (checks.filter fun c => !c.passed && c.severity == Severity.error).length
  let warningCount :=
    (checks.filter fun c => !c.passed && c.severity == Severity.warning).length
  { modelName := modelName
    checks := checks
    overallPassed := errorCount == 0
    errorCount := errorCount
    warningCount := warningCount
    suggestedCorrections := orderCorrections checks }

/-! ### General lemmas about the embedded operations -/

/-- Every result produced by analyzeBoundingBox carries the bounding-box
method tag. -/
lemma analyzeBoundingBox_method {s : Scene} {r : GeometryAnalysisResult}
    (h : analyzeBoundingBox s = some r) : r.method = Method.boundingBox := by
  unfold analyzeBoundingBox at h
  dsimp only at h
  split_ifs at h <;> cases h <;> rfl

/-- Every strategy result carries the tag of its producing strategy, never
the none tag reserved for the identity default. -/
lemma strategyResults_method_ne_none {s : Scene} {e : GeometryAnalysisResult}
    (he : e ∈ strategyResults s) : e.method ≠ Method.none := by
  unfold strategyResults at he
  rcases List.mem_append.mp he with h12 | h3
  · rcases List.mem_append.mp h12 with h1 | h2
    · split at h1
      · simp at h1
      · split at h1
        · split at h1
          · simp only [List.mem_singleton] at h1
            subst h1
            simp
          · simp at h1
        · simp at h1
    · split at h2
      · simp at h2
      · split at h2
        next r hr =>
          simp only [List.mem_singleton] at h2
          subst h2
          rw [analyzeBoundingBox_method hr]
          simp
        next => simp at h2
  · split at h3
    · simp at h3
    · simp only [List.mem_singleton] at h3
      subst h3
      simp

/-- Membership in the strategy result list survives into the allResults
field of the detection result. -/
lemma mem_allResults {s : Scene} {e : GeometryAnalysisResult}
    (he : e ∈ strategyResults s) :
    e ∈ (detectModelOrientation s).allResults := by
  have hmem : e ∈ List.insertionSort confGE (strategyResults s) :=
    (List.perm_insertionSort confGE (strategyResults s)).mem_iff.mpr he
  rcases hs : List.insertionSort confGE (strategyResults s) with _ | ⟨a, l⟩
  · rw [hs] at hmem
    simp at hmem
  · have hd : detectModelOrientation s =
        { detectedForward := a.detectedForward, detectedUp := a.detectedUp
          confidence := a.confidence, method := a.method
          allResults := a :: l } := by
      unfold detectModelOrientation
      rw [hs]
    rw [hd]
    rw [hs] at hmem
    exact hmem

/-- C3. For every scene object, the detection result keeps allResults
sorted in descending order of confidence, its reported forward, up,
confidence and method equal those of the head of allResults, and an empty
allResults forces the identity default with confidence zero. -/
theorem detect_allResults_sorted_and_head (s : Scene) :
    List.Sorted confGE (detectModelOrientation s).allResults ∧
    ((detectModelOrientation s).allResults = [] →
      detectModelOrientation s =
        { detectedForward := ⟨0, 0, -1⟩, detectedUp := ⟨0, 1, 0⟩
          confidence := 0, method := Method.none, allResults := [] }) ∧
    (∀ b rest, (detectModelOrientation s).allResults = b :: rest →
      (detectModelOrientation s).detectedForward = b.detectedForward ∧
      (detectModelOrientation s).detectedUp = b.detectedUp ∧
      (detectModelOrientation s).confidence = b.confidence ∧
      (detectModelOrientation s).method = b.method) := by
  have hsorted := List.sorted_insertionSort confGE (strategyResults s)
  rcases hs : List.insertionSort confGE (strategyResults s) with _ | ⟨a, l⟩
  · have hd : detectModelOrientation s =
        { detectedForward := ⟨0, 0, -1⟩, detectedUp := ⟨0, 1, 0⟩
          confidence := 0, method := Method.none, allResults := [] } := by
      unfold detectModelOrientation
      rw [hs]
    refine ⟨?_, fun _ => hd, ?_⟩
    · rw [hd]
      exact List.sorted_nil
    · intro b rest hbr
      rw [hd] at hbr
      simp at hbr
  · have hd : detectModelOrientation s =
        { detectedForward := a.detectedForward, detectedUp := a.detectedUp
          confidence := a.confidence, method := a.method
          allResults := a :: l } := by
      unfold detectModelOrientation
      rw [hs]
    rw [hs] at hsorted
    refine ⟨?_, ?_, ?_⟩
    · rw [hd]
      exact hsorted
    · intro hnil
      rw [hd] at hnil
      simp at hnil
    · intro b rest hbr
      rw [hd] at hbr
      injection hbr with hb _
      subst hb
      rw [hd]
      exact ⟨rfl, rfl, rfl, rfl⟩

/-- A scene whose three strategies all throw. -/
def sceneC3w : Scene :=
  { scale := ⟨1, 1, 1⟩, quaternion := ⟨0, 0, 0, 1⟩
    bboxIsEmpty := true, bboxMin := ⟨0, 0, 0⟩, bboxMax := ⟨0, 0, 0⟩
    hasSkeleton := false
    standardBones :=
      { hips := Option.none, spine := Option.none, chest := Option.none
        neck := Option.none, head := Option.none
        leftShoulder := Option.none, rightShoulder := Option.none
        leftUpperArm := Option.none, rightUpperArm := Option.none }
    skeletonThrows := true, bboxThrows := true, transformThrows := true }

/-- Witness for C3: on a scene whose strategies all fail, allResults is
empty and the detection result is the identity default. -/
theorem detect_allResults_sorted_and_head_witness :
    detectModelOrientation sceneC3w =
      { detectedForward := ⟨0, 0, -1⟩, detectedUp := ⟨0, 1, 0⟩
        confidence := 0, method := Method.none, allResults := [] } :=
  (detect_allResults_sorted_and_head sceneC3w).2.1 rfl

/-- C7. calculateSkeletonOrientation returns none exactly when hips is
missing, or hips is present but head, spine, chest and neck are all
missing; every other bone combination yields a result. -/
theorem calculateSkeletonOrientation_none_iff (bones : StandardBones) :
    calculateSkeletonOrientation bones = Option.none ↔
      (bones.hips = Option.none ∨
        (bones.head = Option.none ∧ bones.spine = Option.none ∧
         bones.chest = Option.none ∧ bones.neck = Option.none)) := by
  rcases hh : bones.hips with _ | hb <;>
  rcases hd : bones.head with _ | hdb <;>
  rcases hsp : bones.spine with _ | hspb <;>
  rcases hc : bones.chest with _ | hcb <;>
  rcases hn : bones.neck with _ | hnb <;>
  simp [calculateSkeletonOrientation, hh, hd, hsp, hc, hn] <;>
  (try split_ifs) <;>
  simp_all

/-- Witness for C7: a bone record with no hips maps to none. -/
theorem calculateSkeletonOrientation_none_iff_witness :
    calculateSkeletonOrientation sceneC3w.standardBones = Option.none :=
  (calculateSkeletonOrientation_none_iff sceneC3w.standardBones).mpr
    (Or.inl rfl)

/-- The transform fallback entry pushed by strategy three. -/
def transformEntry (s : Scene) : GeometryAnalysisResult :=
  { method := Method.transform
    confidence := 0.3
    detectedForward := (extractBasisVectors s.quaternion).forward
    detectedUp := (extractBasisVectors s.quaternion).up }

/-- When reading the root quaternion succeeds, the transform fallback entry
is among the strategy results. -/
lemma transformEntry_mem_strategyResults (s : Scene)
    (h : s.transformThrows = false) :
    transformEntry s ∈ strategyResults s := by
  unfold strategyResults transformEntry
  rw [h]
  simp

/-- C9. For every scene object whose root quaternion read succeeds, the
detection carries a transform entry of confidence exactly 0.3, allResults
is nonempty, the reported confidence is at least 0.3, and the identity
default branch with method none is unreachable. -/
theorem detect_transform_floor (s : Scene) (h : s.transformThrows = false) :
    (detectModelOrientation s).allResults ≠ [] ∧
    (∃ e ∈ (detectModelOrientation s).allResults,
      e.method = Method.transform ∧ e.confidence = 0.3) ∧
    0.3 ≤ (detectModelOrientation s).confidence ∧
    (detectModelOrientation s).method ≠ Method.none := by
  have he0 : transformEntry s ∈ strategyResults s :=
    transformEntry_mem_strategyResults s h
  have hmem : transformEntry s ∈ List.insertionSort confGE (strategyResults s) :=
    (List.perm_insertionSort confGE (strategyResults s)).mem_iff.mpr he0
  have hsorted := List.sorted_insertionSort confGE (strategyResults s)
  rcases hs : List.insertionSort confGE (strategyResults s) with _ | ⟨a, l⟩
  · rw [hs] at hmem
    simp at hmem
  · have hd : detectModelOrientation s =
        { detectedForward := a.detectedForward, detectedUp := a.detectedUp
          confidence := a.confidence, method := a.method
          allResults := a :: l } := by
      unfold detectModelOrientation
      rw [hs]
    rw [hs] at hmem hsorted
    have hconf : (0.3 : ℝ) ≤ a.confidence := by
      rcases List.mem_cons.mp hmem with he | hm
      · rw [← he]
        exact le_refl _
      · exact List.rel_of_sorted_cons hsorted _ hm
    have hmema : a ∈ strategyResults s := by
      refine (List.perm_insertionSort confGE (strategyResults s)).mem_iff.mp ?_
      rw [hs]
      exact List.mem_cons_self a l
    refine ⟨?_, ⟨transformEntry s, ?_, rfl, rfl⟩, ?_, ?_⟩
    · rw [hd]
      simp
    · rw [hd]
      exact hmem
    · rw [hd]
      exact hconf
    · rw [hd]
      exact strategyResults_method_ne_none hmema

/-- A scene whose only succeeding strategy is the transform fallback. -/
def sceneC9w : Scene :=
  { scale := ⟨1, 1, 1⟩, quaternion := ⟨0, 0, 0, 1⟩
    bboxIsEmpty := true, bboxMin := ⟨0, 0, 0⟩, bboxMax := ⟨0, 0, 0⟩
    hasSkeleton := false
    standardBones :=
      { hips := Option.none, spine := Option.none, chest := Option.none
        neck := Option.none, head := Option.none
        leftShoulder := Option.none, rightShoulder := Option.none
        leftUpperArm := Option.none, rightUpperArm := Option.none }
    skeletonThrows := true, bboxThrows := true, transformThrows := false }

/-- Witness for C9 at a concrete scene. -/
theorem detect_transform_floor_witness :
    0.3 ≤ (detectModelOrientation sceneC9w).confidence ∧
    (detectModelOrientation sceneC9w).method ≠ Method.none := by
  have h := detect_transform_floor sceneC9w rfl
  exact ⟨h.2.2.1, h.2.2.2⟩

/-- Filtering an ordered insertion whose inserted element precedes every
element selected by the predicate: the element lands in front of the
selected sublist when selected, and the selected sublist is otherwise
untouched. -/
lemma filter_orderedInsert {α : Type _} (r : α → α → Prop) [DecidableRel r]
    (p : α → Bool) (x : α) (hx : ∀ y, p x = true → p y = true → r x y)
    (l : List α) :
    (List.orderedInsert r x l).filter p =
      if p x then x :: l.filter p else l.filter p := by
  induction l with
  | nil => cases hpx : p x <;> simp [List.orderedInsert, hpx]
  | cons y l ih =>
    by_cases hxy : r x y
    · rw [List.orderedInsert, if_pos hxy]
      by_cases hpx : p x <;> simp [List.filter_cons, hpx]
    · rw [List.orderedInsert, if_neg hxy]
      have hnpy : p x = true → p y = true → False := fun a b => hxy (hx y a b)
      rw [List.filter_cons, ih]
      by_cases hpx : p x <;> by_cases hpy : p y <;>
        simp_all [List.filter_cons]

/-- Insertion sort is stable: for an order on which the predicate-selected
elements are mutually related, filtering commutes with sorting. -/
lemma filter_insertionSort {α : Type _} (r : α → α → Prop) [DecidableRel r]
    (p : α → Bool) (hp : ∀ a b, p a = true → p b = true → r a b)
    (l : List α) :
    (List.insertionSort r l).filter p = l.filter p := by
  induction l with
  | nil => rfl
  | cons x l ih =>
    rw [List.insertionSort, filter_orderedInsert r p x (fun y => hp x y), ih,
      List.filter_cons]

/-- C4. ModelValidator.validate reports overallPassed exactly when the
error count is zero, and suggestedCorrections is exactly the corrective
transforms of failed checks, stably sorted by transform kind with priority
scale, rotate, translate. -/
theorem validate_report_properties (s : Scene) (modelName : String) :
    ((validate s modelName).overallPassed = true ↔
      (validate s modelName).errorCount = 0) ∧
    List.Sorted prioLE (validate s modelName).suggestedCorrections ∧
    (validate s modelName).suggestedCorrections.Perm
      (failedCorrections (validate s modelName).checks) ∧
    (∀ k : TransformKind,
      ((validate s modelName).suggestedCorrections.filter
          fun c => transformType c == k) =
        ((failedCorrections (validate s modelName).checks).filter
          fun c => transformType c == k)) := by
  have hv : (validate s modelName).suggestedCorrections =
      List.insertionSort prioLE
        (failedCorrections (validate s modelName).checks) := rfl
  refine ⟨?_, ?_, ?_, ?_⟩
  · rw [show (validate s modelName).overallPassed =
        ((validate s modelName).errorCount == 0) from rfl]
    simp
  · rw [hv]
    exact List.sorted_insertionSort prioLE _
  · rw [hv]
    exact List.perm_insertionSort prioLE _
  · intro k
    rw [hv]
    refine filter_insertionSort prioLE _ ?_ _
    intro a b ha hb
    have ha' : transformType a = k := by simpa using ha
    have hb' : transformType b = k := by simpa using hb
    unfold prioLE
    rw [ha', hb']

/-- Witness for C4 at a concrete scene and model name. -/
theorem validate_report_properties_witness :
    List.Sorted prioLE (validate sceneC3w "model").suggestedCorrections ∧
    (validate sceneC3w "model").suggestedCorrections.Perm
      (failedCorrections (validate sceneC3w "model").checks) := by
  have h := validate_report_properties sceneC3w "model"
  exact ⟨h.2.1, h.2.2.1⟩

/-- The tallest-Y branch of analyzeBoundingBox: the assumed-correct
orientation with the ratio-driven confidence; note the 0.001 guard added to
the denominator of the height ratio. -/
lemma analyzeBoundingBox_y (s : Scene) (h0 : (s.bboxSize).length ≠ 0)
    (hy : getTallestAxis s.bboxSize = Axis.y) :
    analyzeBoundingBox s = some
      { method := Method.boundingBox
        confidence := min 0.6 (0.3 +
          (s.bboxSize.y / (max s.bboxSize.x s.bboxSize.z + 0.001) - 1) * 0.15)
        detectedForward := ⟨0, 0, -1⟩
        detectedUp := ⟨0, 1, 0⟩ } := by
  unfold analyzeBoundingBox
  dsimp only
  rw [if_neg h0, hy]
  simp

/-- C6 (amended): for every scene whose bounding box is non-degenerate with
tallest axis Y, analyzeBoundingBox reports up (0,1,0), forward (0,0,-1) and
confidence min 0.6 (0.3 + (heightRatio - 1) * 0.15), where heightRatio
divides the height by max(width, depth) plus the 0.001 guard added by the
source. -/
theorem analyzeBoundingBox_tallest_y (s : Scene)
    (h0 : (s.bboxSize).length ≠ 0)
    (hy : getTallestAxis s.bboxSize = Axis.y) :
    analyzeBoundingBox s = some
      { method := Method.boundingBox
        confidence := min 0.6 (0.3 +
          (s.bboxSize.y / (max s.bboxSize.x s.bboxSize.z + 0.001) - 1) * 0.15)
        detectedForward := ⟨0, 0, -1⟩
        detectedUp := ⟨0, 1, 0⟩ } :=
  analyzeBoundingBox_y s h0 hy

/-- A box of width 1, height 2, depth 1: tallest axis Y. -/
def sceneC6c : Scene :=
  { scale := ⟨1, 1, 1⟩, quaternion := ⟨0, 0, 0, 1⟩
    bboxIsEmpty := false, bboxMin := ⟨0, 0, 0⟩, bboxMax := ⟨1, 2, 1⟩
    hasSkeleton := false
    standardBones :=
      { hips := Option.none, spine := Option.none, chest := Option.none
        neck := Option.none, head := Option.none
        leftShoulder := Option.none, rightShoulder := Option.none
        leftUpperArm := Option.none, rightUpperArm := Option.none }
    skeletonThrows := true, bboxThrows := false, transformThrows := false }

lemma sceneC6c_size : sceneC6c.bboxSize = ⟨1, 2, 1⟩ := by
  simp [Scene.bboxSize, sceneC6c, Vec3.sub]

lemma sceneC6c_h0 : (sceneC6c.bboxSize).length ≠ 0 := by
  rw [sceneC6c_size]
  unfold Vec3.length
  dsimp only
  rw [show (1 : ℝ) * 1 + 2 * 2 + 1 * 1 = 6 by norm_num]
  exact Real.sqrt_ne_zero'.mpr (by norm_num)

lemma sceneC6c_hy : getTallestAxis sceneC6c.bboxSize = Axis.y := by
  rw [sceneC6c_size]
  unfold getTallestAxis
  rw [if_pos (by norm_num)]

/-- Counterexample for C6: on the 1 by 2 by 1 box the code divides the
height by max(width, depth) + 0.001, so the confidence differs from the
claimed formula without the guard. -/
theorem analyzeBoundingBox_tallest_y_counterexample :
    Option.map (fun r => r.confidence) (analyzeBoundingBox sceneC6c) =
      some (min 0.6 (0.3 + ((2 : ℝ) / (1 + 0.001) - 1) * 0.15)) ∧
    min 0.6 (0.3 + ((2 : ℝ) / (1 + 0.001) - 1) * 0.15) ≠
      min 0.6 (0.3 + ((2 : ℝ) / max 1 1 - 1) * 0.15) := by
  constructor
  · rw [analyzeBoundingBox_y sceneC6c sceneC6c_h0 sceneC6c_hy]
    rw [Option.map_some']
    rw [sceneC6c_size]
    norm_num
  · rw [show ((2 : ℝ) / max 1 1 - 1) = 1 by norm_num]
    rw [min_eq_right (a := (0.6 : ℝ)) (b := (0.3 : ℝ) + ((2 : ℝ) / (1 + 0.001) - 1) * 0.15) (by norm_num)]
    rw [min_eq_right (by norm_num : (0.3 : ℝ) + 1 * 0.15 ≤ 0.6)]
    norm_num

/-- Witness for C6 (amended) at the concrete 1 by 2 by 1 box. -/
theorem analyzeBoundingBox_tallest_y_witness :
    analyzeBoundingBox sceneC6c = some
      { method := Method.boundingBox
        confidence := min 0.6 (0.3 +
          (sceneC6c.bboxSize.y /
            (max sceneC6c.bboxSize.x sceneC6c.bboxSize.z + 0.001) - 1) * 0.15)
        detectedForward := ⟨0, 0, -1⟩
        detectedUp := ⟨0, 1, 0⟩ } :=
  analyzeBoundingBox_tallest_y sceneC6c sceneC6c_h0 sceneC6c_hy

/-- C5. For every scene whose bounding box is non-degenerate with tallest
axis X, analyzeBoundingBox classifies by the height-to-width ratio: above
0.3 a wide prop with up (0,1,0), forward (0,0,-1) and confidence exactly
0.3, else possibly sideways with up (1,0,0) and confidence exactly 0.25. -/
theorem analyzeBoundingBox_tallest_x (s : Scene)
    (h0 : (s.bboxSize).length ≠ 0)
    (hx : getTallestAxis s.bboxSize = Axis.x) :
    (s.bboxSize.y / s.bboxSize.x > 0.3 →
      analyzeBoundingBox s = some
        { method := Method.boundingBox, confidence := 0.3
          detectedForward := ⟨0, 0, -1⟩, detectedUp := ⟨0, 1, 0⟩ }) ∧
    (s.bboxSize.y / s.bboxSize.x ≤ 0.3 →
      analyzeBoundingBox s = some
        { method := Method.boundingBox, confidence := 0.25
          detectedForward := ⟨0, 0, -1⟩, detectedUp := ⟨1, 0, 0⟩ }) := by
  unfold analyzeBoundingBox
  dsimp only
  rw [if_neg h0, hx]
  constructor <;> intro hr
  · rw [if_neg (by simp : ¬(Axis.x = Axis.y)),
      if_neg (by simp : ¬(Axis.x = Axis.z)), if_pos rfl, if_pos hr]
  · rw [if_neg (by simp : ¬(Axis.x = Axis.y)),
      if_neg (by simp : ¬(Axis.x = Axis.z)), if_pos rfl,
      if_neg (not_lt.mpr hr)]

/-- A box of width 2, height 0.8, depth 1: tallest axis X, ratio 0.4. -/
def sceneC5w : Scene :=
  { scale := ⟨1, 1, 1⟩, quaternion := ⟨0, 0, 0, 1⟩
    bboxIsEmpty := false, bboxMin := ⟨0, 0, 0⟩, bboxMax := ⟨2, 0.8, 1⟩
    hasSkeleton := false
    standardBones :=
      { hips := Option.none, spine := Option.none, chest := Option.none
        neck := Option.none, head := Option.none
        leftShoulder := Option.none, rightShoulder := Option.none
        leftUpperArm := Option.none, rightUpperArm := Option.none }
    skeletonThrows := true, bboxThrows := false, transformThrows := false }

lemma sceneC5w_size : sceneC5w.bboxSize = ⟨2, 0.8, 1⟩ := by
  simp [Scene.bboxSize, sceneC5w, Vec3.sub]

lemma sceneC5w_h0 : (sceneC5w.bboxSize).length ≠ 0 := by
  rw [sceneC5w_size]
  unfold Vec3.length
  dsimp only
  rw [show (2 : ℝ) * 2 + 0.8 * 0.8 + 1 * 1 = 5.64 by norm_num]
  exact Real.sqrt_ne_zero'.mpr (by norm_num)

lemma sceneC5w_hx : getTallestAxis sceneC5w.bboxSize = Axis.x := by
  rw [sceneC5w_size]
  unfold getTallestAxis
  rw [if_neg (by norm_num), if_neg (by norm_num)]

/-- Witness for C5: the wide 2 by 0.8 by 1 box is classified as a wide prop
with confidence exactly 0.3. -/
theorem analyzeBoundingBox_tallest_x_witness :
    analyzeBoundingBox sceneC5w = some
      { method := Method.boundingBox, confidence := 0.3
        detectedForward := ⟨0, 0, -1⟩, detectedUp := ⟨0, 1, 0⟩ } := by
  refine (analyzeBoundingBox_tallest_x sceneC5w sceneC5w_h0 sceneC5w_hx).1 ?_
  rw [sceneC5w_size]
  norm_num

/-- C1 (amended): when the skeleton strategy succeeds, its entry in
allResults carries exactly the tier-mapped confidence high 0.95, medium
0.7, low 0.5, for every scene and thus regardless of the bounding-box
result: no cross-validation adjusts it. -/
theorem detect_skeleton_confidence_map (s : Scene) (o : OrientationResult)
    (h1 : s.skeletonThrows = false) (h2 : s.hasSkeleton = true)
    (h3 : calculateSkeletonOrientation s.standardBones = some o) :
    ({ method := Method.skeleton, confidence := confidenceMap o.confidence
       detectedForward := o.forwardVector, detectedUp := o.upVector } :
      GeometryAnalysisResult) ∈ (detectModelOrientation s).allResults ∧
    confidenceMap Tier.high = 0.95 ∧ confidenceMap Tier.medium = 0.7 ∧
    confidenceMap Tier.low = 0.5 := by
  refine ⟨mem_allResults ?_, rfl, rfl, rfl⟩
  simp [strategyResults, h1, h2, h3]

/-- A full set of semantic bones: hips, head and both shoulders present. -/
def bonesC1 : StandardBones :=
  { hips := some defaultBone, spine := Option.none, chest := Option.none
    neck := Option.none, head := some defaultBone
    leftShoulder := some defaultBone, rightShoulder := some defaultBone
    leftUpperArm := Option.none, rightUpperArm := Option.none }

/-- A scene with a full skeleton, a throwing bounding-box read, and a
working transform fallback. -/
def sceneC1 : Scene :=
  { scale := ⟨1, 1, 1⟩, quaternion := ⟨0, 0, 0, 1⟩
    bboxIsEmpty := true, bboxMin := ⟨0, 0, 0⟩, bboxMax := ⟨0, 0, 0⟩
    hasSkeleton := true, standardBones := bonesC1
    skeletonThrows := false, bboxThrows := true, transformThrows := false }

/-- The skeleton entry produced for sceneC1. -/
def c1entryS : GeometryAnalysisResult :=
  { method := Method.skeleton
    confidence := confidenceMap (calculateFromFullSkeleton bonesC1).confidence
    detectedForward := (calculateFromFullSkeleton bonesC1).forwardVector
    detectedUp := (calculateFromFullSkeleton bonesC1).upVector }

lemma sceneC1_sort :
    List.insertionSort confGE (strategyResults sceneC1) =
      [c1entryS, transformEntry sceneC1] := by
  rw [show strategyResults sceneC1 = [c1entryS, transformEntry sceneC1] from rfl]
  have hle : confGE c1entryS (transformEntry sceneC1) := by
    show (0.3 : ℝ) ≤ 0.95
    norm_num
  simp only [List.insertionSort, List.orderedInsert]
  rw [if_pos hle]

lemma sceneC1_detect :
    detectModelOrientation sceneC1 =
      { detectedForward := c1entryS.detectedForward
        detectedUp := c1entryS.detectedUp
        confidence := c1entryS.confidence
        method := c1entryS.method
        allResults := [c1entryS, transformEntry sceneC1] } := by
  unfold detectModelOrientation
  rw [sceneC1_sort]

/-- Counterexample for C1: for a high-tier skeleton result the code maps
the confidence to 0.95 and leaves it unadjusted, where the claim demands
0.85 as the raw high-tier value. -/
theorem detect_skeleton_confidence_map_counterexample :
    Option.map (fun o => o.confidence)
      (calculateSkeletonOrientation sceneC1.standardBones) = some Tier.high ∧
    (detectModelOrientation sceneC1).method = Method.skeleton ∧
    (detectModelOrientation sceneC1).confidence = 0.95 ∧
    (0.95 : ℝ) ≠ 0.85 := by
  refine ⟨rfl, ?_, ?_, by norm_num⟩
  · rw [sceneC1_detect]
    rfl
  · rw [sceneC1_detect]
    rfl

/-- Witness for C1 (amended) at the concrete full-skeleton scene. -/
theorem detect_skeleton_confidence_map_witness :
    c1entryS ∈ (detectModelOrientation sceneC1).allResults ∧
    confidenceMap Tier.high = 0.95 := by
  have h := detect_skeleton_confidence_map sceneC1
    (calculateFromFullSkeleton bonesC1) rfl rfl rfl
  exact ⟨h.1, h.2.1⟩

/-- A scene with no skeleton and no bounding box, rotated half a turn about
X so that the detected up is (0,-1,0). -/
def sceneC2 : Scene :=
  { scale := ⟨1, 1, 1⟩, quaternion := ⟨1, 0, 0, 0⟩
    bboxIsEmpty := true, bboxMin := ⟨0, 0, 0⟩, bboxMax := ⟨0, 0, 0⟩
    hasSkeleton := false
    standardBones :=
      { hips := Option.none, spine := Option.none, chest := Option.none
        neck := Option.none, head := Option.none
        leftShoulder := Option.none, rightShoulder := Option.none
        leftUpperArm := Option.none, rightUpperArm := Option.none }
    skeletonThrows := true, bboxThrows := true, transformThrows := false }

lemma sceneC2_up : (detectModelOrientation sceneC2).detectedUp = ⟨0, -1, 0⟩ := by
  show (extractBasisVectors ⟨1, 0, 0, 0⟩).up = ⟨0, -1, 0⟩
  unfold extractBasisVectors
  dsimp only
  simp only [Vec3.mk.injEq]
  norm_num

lemma sceneC2_upcheck :
    (checkUpDirection sceneC2).passed = false ∧
    (checkUpDirection sceneC2).severity = Severity.error := by
  unfold checkUpDirection
  dsimp only
  rw [sceneC2_up]
  have d1 : Vec3.dot ⟨0, -1, 0⟩ ⟨0, 1, 0⟩ = -1 := by
    unfold Vec3.dot
    norm_num
  have d2 : Vec3.dot ⟨0, -1, 0⟩ ⟨0, 0, 1⟩ = 0 := by
    unfold Vec3.dot
    norm_num
  have d3 : Vec3.dot (⟨0, -1, 0⟩ : Vec3) ⟨0, -1, 0⟩ = 1 := by
    unfold Vec3.dot
    norm_num
  rw [d1, d2, d3]
  rw [if_neg (by norm_num : ¬((-1 : ℝ) ≥ 0.996)),
    if_neg (by norm_num : ¬((0 : ℝ) ≥ 0.996)),
    if_pos (by norm_num : (1 : ℝ) ≥ 0.996)]
  exact ⟨rfl, rfl⟩

/-- Counterexample for C2: on a scene with no skeleton and detection
confidence 0.3 (low), a failing up-direction check still reports severity
error, not the claimed warning. -/
theorem checkUpDirection_severity_counterexample :
    (detectModelOrientation sceneC2).method = Method.transform ∧
    (detectModelOrientation sceneC2).confidence = 0.3 ∧
    (checkUpDirection sceneC2).passed = false ∧
    (checkUpDirection sceneC2).severity = Severity.error :=
  ⟨rfl, rfl, sceneC2_upcheck.1, sceneC2_upcheck.2⟩

/-- C2 (amended): every failing branch of checkUpDirection reports
severity error, regardless of detection confidence or skeleton presence. -/
theorem checkUpDirection_failed_severity_error (s : Scene)
    (h : (checkUpDirection s).passed = false) :
    (checkUpDirection s).severity = Severity.error := by
  unfold checkUpDirection at h ⊢
  dsimp only at h ⊢
  split_ifs at h ⊢ <;> rfl

/-- Witness for C2 (amended) at the concrete upside-down scene. -/
theorem checkUpDirection_failed_severity_error_witness :
    (checkUpDirection sceneC2).severity = Severity.error :=
  checkUpDirection_failed_severity_error sceneC2 sceneC2_upcheck.1

/-- A vector other than the origin has a positive dot product with
itself. -/
lemma dotSelf_pos {v : Vec3} (hv : v ≠ ⟨0, 0, 0⟩) :
    0 < v.x * v.x + v.y * v.y + v.z * v.z := by
  rcases lt_or_eq_of_le
    (add_nonneg (add_nonneg (mul_self_nonneg v.x) (mul_self_nonneg v.y))
      (mul_self_nonneg v.z)) with h | h
  · exact h
  · exfalso
    apply hv
    have hx2 : v.x * v.x = 0 := le_antisymm
      (by nlinarith [mul_self_nonneg v.y, mul_self_nonneg v.z])
      (mul_self_nonneg v.x)
    have hy2 : v.y * v.y = 0 := le_antisymm
      (by nlinarith [mul_self_nonneg v.x, mul_self_nonneg v.z])
      (mul_self_nonneg v.y)
    have hz2 : v.z * v.z = 0 := le_antisymm
      (by nlinarith [mul_self_nonneg v.x, mul_self_nonneg v.y])
      (mul_self_nonneg v.z)
    exact Vec3.ext (mul_self_eq_zero.mp hx2) (mul_self_eq_zero.mp hy2)
      (mul_self_eq_zero.mp hz2)

/-- A vector other than the origin has positive length. -/
lemma length_pos {v : Vec3} (hv : v ≠ ⟨0, 0, 0⟩) : 0 < v.length := by
  unfold Vec3.length
  exact Real.sqrt_pos.mpr (dotSelf_pos hv)

/-- Away from the origin the zero-length guard of normalize is inactive. -/
lemma normalize_apply {v : Vec3} (hv : v ≠ ⟨0, 0, 0⟩) :
    v.normalize = ⟨v.x / v.length, v.y / v.length, v.z / v.length⟩ := by
  unfold Vec3.normalize
  dsimp only
  rw [if_neg (length_pos hv).ne']

/-- The normalization of a vector other than the origin is a unit vector in
the dot-product sense. -/
lemma dot_normalize_self {v : Vec3} (hv : v ≠ ⟨0, 0, 0⟩) :
    (v.normalize).dot (v.normalize) = 1 := by
  rw [normalize_apply hv]
  unfold Vec3.dot Vec3.length
  dsimp only
  have hS : 0 < v.x * v.x + v.y * v.y + v.z * v.z := dotSelf_pos hv
  have hne : Real.sqrt (v.x * v.x + v.y * v.y + v.z * v.z) ≠ 0 :=
    (Real.sqrt_pos.mpr hS).ne'
  field_simp

/-- Normalizing an exactly opposite pair yields dot product -1. -/
lemma dot_normalize_neg {v : Vec3} (hv : v ≠ ⟨0, 0, 0⟩) :
    (v.normalize).dot ((Vec3.neg v).normalize) = -1 := by
  have hneg : Vec3.neg v ≠ ⟨0, 0, 0⟩ := by
    intro h
    apply hv
    have hx := congrArg Vec3.x h
    have hy := congrArg Vec3.y h
    have hz := congrArg Vec3.z h
    simp [Vec3.neg] at hx hy hz
    exact Vec3.ext hx hy hz
  have hlen : (Vec3.neg v).length = v.length := by
    unfold Vec3.length Vec3.neg
    dsimp only
    congr 1
    ring
  rw [normalize_apply hv, normalize_apply hneg, hlen]
  unfold Vec3.dot Vec3.neg Vec3.length
  dsimp only
  have hS : 0 < v.x * v.x + v.y * v.y + v.z * v.z := dotSelf_pos hv
  have hne : Real.sqrt (v.x * v.x + v.y * v.y + v.z * v.z) ≠ 0 :=
    (Real.sqrt_pos.mpr hS).ne'
  have hms := Real.mul_self_sqrt hS.le
  field_simp
  nlinarith [hms]

/-- Counterexample for C8: the zero vector is not approximately equal to
itself (its guard leaves it unnormalized with dot zero), and an opposite
pair passes when the threshold argument is -1. -/
theorem vectorsApproximatelyEqual_counterexample :
    ¬ vectorsApproximatelyEqual ⟨0, 0, 0⟩ ⟨0, 0, 0⟩ ∧
    vectorsApproximatelyEqual ⟨1, 0, 0⟩ ⟨-1, 0, 0⟩ (-1) := by
  have h0 : Vec3.normalize ⟨0, 0, 0⟩ = ⟨0, 0, 0⟩ := by
    unfold Vec3.normalize Vec3.length
    dsimp only
    rw [show (0 : ℝ) * 0 + 0 * 0 + 0 * 0 = 0 by norm_num, Real.sqrt_zero,
      if_pos rfl]
    simp only [Vec3.mk.injEq]
    norm_num
  have h1 : Vec3.normalize ⟨1, 0, 0⟩ = ⟨1, 0, 0⟩ := by
    unfold Vec3.normalize Vec3.length
    dsimp only
    rw [show (1 : ℝ) * 1 + 0 * 0 + 0 * 0 = 1 by norm_num, Real.sqrt_one,
      if_neg one_ne_zero]
    simp only [Vec3.mk.injEq]
    norm_num
  have h2 : Vec3.normalize ⟨-1, 0, 0⟩ = ⟨-1, 0, 0⟩ := by
    unfold Vec3.normalize Vec3.length
    dsimp only
    rw [show (-1 : ℝ) * -1 + 0 * 0 + 0 * 0 = 1 by norm_num, Real.sqrt_one,
      if_neg one_ne_zero]
    simp only [Vec3.mk.injEq]
    norm_num
  constructor
  · show ¬((Vec3.normalize ⟨0, 0, 0⟩).dot (Vec3.normalize ⟨0, 0, 0⟩) ≥ 0.996)
    rw [h0]
    unfold Vec3.dot
    norm_num
  · show (Vec3.normalize ⟨1, 0, 0⟩).dot (Vec3.normalize ⟨-1, 0, 0⟩) ≥ -1
    rw [h1, h2]
    unfold Vec3.dot
    norm_num

/-- C8 (amended): vectorsApproximatelyEqual normalizes both vectors and
compares the dot product with the threshold (default 0.996); it is
reflexive for every nonzero vector, and rejects every exactly opposite
nonzero pair whenever the threshold exceeds -1. -/
theorem vectorsApproximatelyEqual_properties :
    (∀ a b t, vectorsApproximatelyEqual a b t ↔
      (a.normalize).dot (b.normalize) ≥ t) ∧
    (∀ v : Vec3, v ≠ ⟨0, 0, 0⟩ → vectorsApproximatelyEqual v v) ∧
    (∀ v : Vec3, v ≠ ⟨0, 0, 0⟩ → ∀ t : ℝ, -1 < t →
      ¬ vectorsApproximatelyEqual v (Vec3.neg v) t) := by
  refine ⟨fun a b t => Iff.rfl, fun v hv => ?_, fun v hv t ht => ?_⟩
  · show (v.normalize).dot (v.normalize) ≥ 0.996
    rw [dot_normalize_self hv]
    norm_num
  · show ¬((v.normalize).dot ((Vec3.neg v).normalize) ≥ t)
    rw [dot_normalize_neg hv]
    linarith

/-- Witness for C8 (amended) at the concrete vector (0, 0, 2). -/
theorem vectorsApproximatelyEqual_properties_witness :
    vectorsApproximatelyEqual ⟨0, 0, 2⟩ ⟨0, 0, 2⟩ ∧
    ¬ vectorsApproximatelyEqual ⟨0, 0, 2⟩ (Vec3.neg ⟨0, 0, 2⟩) 0 := by
  have hv : (⟨0, 0, 2⟩ : Vec3) ≠ ⟨0, 0, 0⟩ := by
    intro h
    have hz := congrArg Vec3.z h
    norm_num at hz
  exact ⟨vectorsApproximatelyEqual_properties.2.1 ⟨0, 0, 2⟩ hv,
    vectorsApproximatelyEqual_properties.2.2 ⟨0, 0, 2⟩ hv 0 (by norm_num)⟩

/-- C10. When checkScale fails, its corrective transform is the unguarded
componentwise reciprocal of the scale, at severity warning; a zero scale
component therefore yields a non-finite corrective component, with no
guard or error. -/
theorem checkScale_reciprocal_corrective (s : Scene)
    (h : (checkScale s).passed = false) :
    (checkScale s).correctiveTransform =
      some (CorrectionTransform.scale (jsDiv 1 s.scale.x) (jsDiv 1 s.scale.y)
        (jsDiv 1 s.scale.z)) ∧
    (checkScale s).severity = Severity.warning ∧
    (s.scale.x = 0 → (jsDiv 1 s.scale.x).isFinite = false) ∧
    (s.scale.y = 0 → (jsDiv 1 s.scale.y).isFinite = false) ∧
    (s.scale.z = 0 → (jsDiv 1 s.scale.z).isFinite = false) := by
  have hj : ∀ r : ℝ, r = 0 → (jsDiv 1 r).isFinite = false := by
    intro r hr
    subst hr
    unfold jsDiv
    rw [if_pos rfl, if_neg (by norm_num : ¬(1 : ℝ) = 0),
      if_pos (by norm_num : (0 : ℝ) < 1)]
    rfl
  unfold checkScale at h ⊢
  dsimp only at h ⊢
  split_ifs at h ⊢
  exact ⟨rfl, rfl, fun hx => hj _ hx, fun hy => hj _ hy, fun hz => hj _ hz⟩

/-- A scene with a degenerate zero X scale component. -/
def sceneC10 : Scene :=
  { scale := ⟨0, 2, 2⟩, quaternion := ⟨0, 0, 0, 1⟩
    bboxIsEmpty := true, bboxMin := ⟨0, 0, 0⟩, bboxMax := ⟨0, 0, 0⟩
    hasSkeleton := false
    standardBones :=
      { hips := Option.none, spine := Option.none, chest := Option.none
        neck := Option.none, head := Option.none
        leftShoulder := Option.none, rightShoulder := Option.none
        leftUpperArm := Option.none, rightUpperArm := Option.none }
    skeletonThrows := true, bboxThrows := true, transformThrows := false }

lemma sceneC10_failed : (checkScale sceneC10).passed = false := by
  unfold checkScale
  dsimp only
  rw [if_neg]
  rintro ⟨-, -, habs, -⟩
  rw [show sceneC10.scale.y = (2 : ℝ) from rfl] at habs
  rw [show |(2 : ℝ) - 1| = 1 by norm_num] at habs
  norm_num at habs

/-- Witness for C10 at the concrete scene with zero X scale. -/
theorem checkScale_reciprocal_corrective_witness :
    (checkScale sceneC10).severity = Severity.warning ∧
    (jsDiv 1 sceneC10.scale.x).isFinite = false := by
  have h := checkScale_reciprocal_corrective sceneC10 sceneC10_failed
  exact ⟨h.2.1, h.2.2.1 rfl⟩

end

end ThreeViewer
